import Mathlib

/-!
Shallow embedding of `src/mcp/pixellab-mcp/server.py` (the PixelLab MCP
server) and of the polling loop in `src/mcp/pixellab-mcp/test_generate_sprite.py`.

The remote PixelLab client is modelled as an explicit outcome value: each call
to `pixellab_client.generate_image_pixflux` either raises an exception
(carrying its message string) or returns a response whose `image` attribute is
either absent/None or an image payload (modelled as a list of bytes).
Filesystem effects are made explicit: each operation returns, next to its
result dictionary, the list of `(path, content)` writes it performed, in order.
Result dictionaries are modelled as structures whose `Option` fields record
whether the corresponding key is present in the branch that built the dict.
-/

/-- An image payload (the bytes ultimately saved by `pil_image.save`). -/
abbrev Bytes := List Nat

/-- Outcome of one call to `pixellab_client.generate_image_pixflux`:
either the call raises (with message `msg`), or it returns a response whose
`.image` is `none` (falsy) or an actual payload. -/
inductive RemoteOutcome where
  | raised (msg : String)
  | resp (image : Option Bytes)
deriving DecidableEq

/-- Whether the remote call produced a usable image (the `response.image`
truthiness test at server.py line 87 passes). -/
def RemoteOutcome.isSuccess : RemoteOutcome → Bool
  | .resp (some _) => true
  | _ => false

/-- The error text the server reports for a failed remote outcome:
`str(e)` for a raised exception, the literal `"No image in response"` for a
response without image (server.py lines 88-92 and 115-120). -/
def RemoteOutcome.errText : RemoteOutcome → String
  | .raised m => m
  | .resp _ => "No image in response"

/-- Result dictionary of `generate_sprite` (server.py lines 88-120).
`none` in a field models the key being absent from the dict built in the
branch taken. -/
structure GenResult where
  ok : Bool
  error : Option String := none
  file_path : Option String := none
  filename : Option String := none
  size : Option String := none
  direction : Option String := none
  view : Option String := none
  description : Option String := none
  message : Option String := none
deriving DecidableEq

/-- Python `name.lower().replace(' ', '_')`: lower-case every character,
then replace each space with an underscore (server.py lines 98 and 228). -/
def pyLowerUnderscore (s : String) : String :=
  String.mk ((s.data.map Char.toLower).map (fun c => if c = ' ' then '_' else c))

/-- The filename computed at server.py line 98:
`f"{name.lower().replace(' ', '_')}_{direction}.png"`. -/
def spriteFilename (name direction : String) : String :=
  pyLowerUnderscore name ++ "_" ++ direction ++ ".png"

/-- The full output path: `Path(output_dir or DEFAULT_OUTPUT_DIR) / filename`
(server.py lines 95-99). `defaultDir` stands for the process-wide
`DEFAULT_OUTPUT_DIR` read from the environment at startup. -/
def spritePath (defaultDir : String) (output_dir : Option String)
    (name direction : String) : String :=
  (output_dir.getD defaultDir) ++ "/" ++ spriteFilename name direction

/-- Embedding of `generate_sprite` (server.py lines 50-120).  Returns the
result dictionary together with the list of filesystem writes performed. -/
def generate_sprite (defaultDir : String) (description name : String)
    (width height : Nat) (view direction : String) (no_background : Bool)
    (output_dir : Option String) (remote : RemoteOutcome) :
    GenResult × List (String × Bytes) :=
  match remote with
  | .raised msg =>
      ({ ok := false, error := some msg, description := some description }, [])
  | .resp none =>
      ({ ok := false, error := some "No image in response",
         description := some description }, [])
  | .resp (some img) =>
      let filename := spriteFilename name direction
      let file_path := spritePath defaultDir output_dir name direction
      let _ := no_background
      ({ ok := true,
         file_path := some file_path,
         filename := some filename,
         size := some (toString width ++ "x" ++ toString height),
         direction := some direction,
         view := some view,
         description := some description,
         message := some ("✅ Sprite saved to " ++ file_path) },
       [(file_path, img)])

/-- Whether `pat` occurs as a contiguous run inside the character list
(embedding of the Python substring test `pat in s`). -/
def hasInfixList (pat : List Char) : List Char → Bool
  | [] => pat.isEmpty
  | c :: rest => pat.isPrefixOf (c :: rest) || hasInfixList pat rest

/-- Python's `pat in s` substring containment on strings. -/
def strContains (s pat : String) : Bool :=
  hasInfixList pat.toList s.toList

/-- Outcome of one call to `pixellab_client.get_balance`: raises with a
message, or returns a balance object whose `usd` attribute may be missing
(the `hasattr` test at server.py line 32). -/
inductive BalanceOutcome where
  | raised (msg : String)
  | balance (usd : Option Int)
deriving DecidableEq

/-- Result dictionary of `health` (server.py lines 27-48). -/
structure HealthResult where
  ok : Bool
  message : Option String := none
  token_valid : Bool
  client : Option String := none
  balance_usd : Option Int := none
  subscription : Option String := none
  error : Option String := none
deriving DecidableEq

/-- Embedding of `health` (server.py lines 27-48). -/
def health (r : BalanceOutcome) : HealthResult :=
  match r with
  | .balance usd =>
      let usd_balance := usd.getD 0
      { ok := true,
        message := some "PixelLab API is accessible",
        token_valid := true,
        client := some "pixellab SDK v1.0.5",
        balance_usd := some usd_balance,
        subscription := some (if usd_balance = 0
          then "Tier 1 (1000 images/month)"
          else "$" ++ toString usd_balance ++ " USD") }
  | .raised error_msg =>
      { ok := false,
        error := some error_msg,
        token_valid := !(strContains error_msg "401")
                       && !(strContains error_msg "Unauthorized") }

/-- Result dictionary of `generate_tile` (server.py lines 187-249). -/
structure TileResult where
  ok : Bool
  error : Option String := none
  file_path : Option String := none
  filename : Option String := none
  size : Option String := none
  isometric : Option Bool := none
  description : Option String := none
  message : Option String := none
deriving DecidableEq

/-- Embedding of `generate_tile` (server.py lines 187-249). -/
def generate_tile (defaultDir : String) (description name : String)
    (size : Nat) (isometric : Bool) (output_dir : Option String)
    (remote : RemoteOutcome) : TileResult × List (String × Bytes) :=
  match remote with
  | .raised msg =>
      ({ ok := false, error := some msg, description := some description }, [])
  | .resp none =>
      ({ ok := false, error := some "No image in response",
         description := some description }, [])
  | .resp (some img) =>
      let filename := pyLowerUnderscore name ++ ".png"
      let file_path := (output_dir.getD defaultDir) ++ "/tiles/" ++ filename
      ({ ok := true,
         file_path := some file_path,
         filename := some filename,
         size := some (toString size ++ "x" ++ toString size),
         isometric := some isometric,
         description := some description,
         message := some ("✅ Tile saved to " ++ file_path) },
       [(file_path, img)])

/-- Apply one filesystem write (path overwrite semantics of `pil_image.save`). -/
def applyWrite (fs : String → Option Bytes) (w : String × Bytes) :
    String → Option Bytes :=
  fun p => if p = w.1 then some w.2 else fs p

/-- Apply a sequence of writes in order. -/
def applyWrites (ws : List (String × Bytes)) (fs : String → Option Bytes) :
    String → Option Bytes :=
  ws.foldl applyWrite fs

/-- One entry of the `errors` list built by `generate_character_set`
(server.py lines 164-167): the direction and `result.get("error")`. -/
abbrev DirError := String × Option String

/-- Result dictionary of `generate_character_set` (server.py lines 169-185).
In the all-failed branch the `errors` key holds the list itself (possibly
empty); in the success branch the key holds `None` when no errors occurred,
modelled by `errorsVal = none`. -/
structure CharSetResult where
  ok : Bool
  error : Option String := none
  errorsVal : Option (List DirError) := none
  character_name : Option String := none
  sprites_generated : Option Nat := none
  directions : Option (List String) := none
  files : Option (List String) := none
  directory : Option String := none
  message : Option String := none
deriving DecidableEq

/-- Accumulated state of the `for direction in directions` loop
(server.py lines 146-167), plus an explicit trace of the filesystem writes
performed and of the directions for which `generate_sprite` was invoked. -/
structure LoopAcc where
  results : List GenResult
  errors : List DirError
  writes : List (String × Bytes)
  calls : List String
deriving DecidableEq

/-- The loop body of `generate_character_set` (server.py lines 149-167),
run over the remaining `dirs`.  `remote i` is the outcome of the remote call
made by the `i`-th `generate_sprite` invocation of this batch (0-based);
`i` is the index of the next invocation. -/
def charLoop (defaultDir description name : String) (size : Nat)
    (output_dir : Option String) (remote : Nat → RemoteOutcome) (i : Nat) :
    List String → LoopAcc
  | [] => ⟨[], [], [], []⟩
  | d :: rest =>
      let r := generate_sprite defaultDir description name size size
        "low top-down" d true output_dir (remote i)
      let acc := charLoop defaultDir description name size output_dir
        remote (i + 1) rest
      if r.1.ok then
        ⟨r.1 :: acc.results, acc.errors, r.2 ++ acc.writes, d :: acc.calls⟩
      else
        ⟨acc.results, (d, r.1.error) :: acc.errors, r.2 ++ acc.writes,
         d :: acc.calls⟩

/-- Everything `generate_character_set` produces: the result dictionary and
the traces of writes and of attempted directions. -/
structure CharSetOut where
  res : CharSetResult
  writes : List (String × Bytes)
  calls : List String

/-- Parent directory of a path (`str(Path(p).parent)` for the slash-joined
paths this embedding builds). -/
def pathParent (p : String) : String :=
  String.intercalate "/" (p.splitOn "/").dropLast

/-- Embedding of `generate_character_set` (server.py lines 122-185). -/
def generate_character_set (defaultDir description name : String) (size : Nat)
    (directions : Option (List String)) (output_dir : Option String)
    (remote : Nat → RemoteOutcome) : CharSetOut :=
  let dirs := directions.getD ["north", "south", "east", "west"]
  let acc := charLoop defaultDir description name size output_dir remote 0 dirs
  if acc.results.isEmpty then
    ⟨{ ok := false,
       error := some "Failed to generate any sprites",
       errorsVal := some acc.errors }, acc.writes, acc.calls⟩
  else
    let n := acc.results.length
    ⟨{ ok := true,
       character_name := some name,
       sprites_generated := some n,
       directions := some (acc.results.map (fun r => r.direction.getD "")),
       files := some (acc.results.map (fun r => r.file_path.getD "")),
       directory := some (pathParent
         ((acc.results.head?.bind (fun r => r.file_path)).getD "")),
       errorsVal := if acc.errors.isEmpty then none else some acc.errors,
       message := some ("✅ Generated " ++ toString n ++ " sprites for " ++ name) },
     acc.writes, acc.calls⟩

/-- The list of directions that end up in the success results (the
`directions` key), read back from the output; absent key means empty. -/
def CharSetOut.succDirs (o : CharSetOut) : List String :=
  o.res.directions.getD []

/-- The list of directions that end up in the `errors` list, read back from
the output; an absent or `None`-valued key means empty. -/
def CharSetOut.errDirs (o : CharSetOut) : List String :=
  (o.res.errorsVal.getD []).map (fun e => e.1)

/-- Reference list: the sub-list of `dirs` whose remote call (numbered from
`i`) succeeds, in input order. -/
def selectDirs (remote : Nat → RemoteOutcome) (i : Nat) :
    List String → List String
  | [] => []
  | d :: rest =>
      if (remote i).isSuccess then d :: selectDirs remote (i + 1) rest
      else selectDirs remote (i + 1) rest

/-- Reference list: the `(direction, error)` pairs of the failed remote
calls (numbered from `i`), in input order. -/
def rejectErrs (remote : Nat → RemoteOutcome) (i : Nat) :
    List String → List DirError
  | [] => []
  | d :: rest =>
      if (remote i).isSuccess then rejectErrs remote (i + 1) rest
      else (d, some (remote i).errText) :: rejectErrs remote (i + 1) rest

/-- The success-branch result dictionary `generate_sprite` builds for
direction `d` inside a character batch (it does not depend on which remote
call produced it, only on the parameters). -/
def spriteOkResult (defaultDir description name : String) (size : Nat)
    (output_dir : Option String) (d : String) : GenResult :=
  { ok := true,
    file_path := some (spritePath defaultDir output_dir name d),
    filename := some (spriteFilename name d),
    size := some (toString size ++ "x" ++ toString size),
    direction := some d,
    view := some "low top-down",
    description := some description,
    message := some ("✅ Sprite saved to " ++ spritePath defaultDir output_dir name d) }

/-- Outcome of one `client.get_character` poll: raises, or returns a
character whose `rotations` list may be empty. -/
inductive PollResp where
  | raised (msg : String)
  | rotations (rots : List String)
deriving DecidableEq

/-- Counters of the polling loop: sleeps performed, polls performed, and the
`waited` accumulator (seconds). -/
structure PollTrace where
  sleeps : Nat
  polls : Nat
  waited : Nat
deriving DecidableEq

/-- How the `while waited < max_wait` loop itself exits
(test_generate_sprite.py lines 61-76): a break on non-empty rotations, an
immediate abort on a poll exception, or natural exhaustion of the bound. -/
inductive LoopExit where
  | broke (t : PollTrace) (rots : List String)
  | errored (t : PollTrace) (msg : String)
  | exhausted (t : PollTrace)
deriving DecidableEq

/-- Trace stored in a loop exit. -/
def LoopExit.trace : LoopExit → PollTrace
  | .broke t _ => t
  | .errored t _ => t
  | .exhausted t => t

/-- Embedding of the polling loop body (test_generate_sprite.py lines
61-76): while `waited < max_wait`, first sleep `interval` seconds and add it
to `waited`, then poll; a non-empty rotations list breaks the loop, an
exception aborts, an empty list continues.  `status k` is the response of
the `k`-th poll (0-based).  `interval` must be positive for the Python loop
to terminate. -/
def pollLoopAux (status : Nat → PollResp) (interval max_wait : Nat)
    (hi : 0 < interval) (waited polls sleeps : Nat) : LoopExit :=
  if _h : waited < max_wait then
    match status polls with
    | .raised m => .errored ⟨sleeps + 1, polls + 1, waited + interval⟩ m
    | .rotations rots =>
        if rots.isEmpty then
          pollLoopAux status interval max_wait hi (waited + interval)
            (polls + 1) (sleeps + 1)
        else .broke ⟨sleeps + 1, polls + 1, waited + interval⟩ rots
  else .exhausted ⟨sleeps, polls, waited⟩
termination_by max_wait - waited
decreasing_by omega

/-- Final outcome of the wait (test_generate_sprite.py lines 55-80): after
the loop, `waited >= max_wait` is reported as a timeout even when the last
poll broke the loop with results; a poll exception is reported as its own
outcome. -/
inductive PollOutcome where
  | ready (t : PollTrace) (rots : List String)
  | statusError (t : PollTrace) (msg : String)
  | timeout (t : PollTrace)
deriving DecidableEq

/-- Trace stored in a poll outcome. -/
def PollOutcome.trace : PollOutcome → PollTrace
  | .ready t _ => t
  | .statusError t _ => t
  | .timeout t => t

/-- Whether the outcome detected readiness. -/
def PollOutcome.isReady : PollOutcome → Bool
  | .ready _ _ => true
  | _ => false

/-- Embedding of the whole wait-for-completion passage
(test_generate_sprite.py lines 55-80). -/
def awaitCompletion (status : Nat → PollResp) (interval max_wait : Nat)
    (hi : 0 < interval) : PollOutcome :=
  match pollLoopAux status interval max_wait hi 0 0 0 with
  | .errored t m => .statusError t m
  | .exhausted t => .timeout t
  | .broke t rots => if max_wait ≤ t.waited then .timeout t else .ready t rots

/-- The status function of the C7 scenario: empty rotations on the first
two polls, a non-empty list from the third on. -/
def scenarioStatus : Nat → PollResp :=
  fun k => if k < 2 then .rotations [] else .rotations ["north"]

/-! ### Helper lemmas about `generate_sprite` and the batch loop -/

/-- `generate_sprite` succeeds exactly when the remote call produced an
image. -/
theorem generate_sprite_ok (defaultDir description name : String)
    (width height : Nat) (view direction : String) (no_background : Bool)
    (output_dir : Option String) (ro : RemoteOutcome) :
    (generate_sprite defaultDir description name width height view direction
      no_background output_dir ro).1.ok = ro.isSuccess := by
  cases ro with
  | raised m => rfl
  | resp img => cases img <;> rfl

/-- On a successful remote call inside a character batch, `generate_sprite`
builds exactly the success dictionary `spriteOkResult`. -/
theorem generate_sprite_success_eq (defaultDir description name : String)
    (size : Nat) (d : String) (output_dir : Option String) (img : Bytes) :
    (generate_sprite defaultDir description name size size "low top-down" d
      true output_dir (.resp (some img))).1
      = spriteOkResult defaultDir description name size output_dir d := rfl

/-- On a failed remote call, `generate_sprite` builds the failure dictionary
carrying `errText`. -/
theorem generate_sprite_fail_eq (defaultDir description name : String)
    (width height : Nat) (view direction : String) (no_background : Bool)
    (output_dir : Option String) (ro : RemoteOutcome)
    (hf : ro.isSuccess = false) :
    (generate_sprite defaultDir description name width height view direction
      no_background output_dir ro).1
      = { ok := false, error := some ro.errText,
          description := some description } := by
  cases ro with
  | raised m => rfl
  | resp img => cases img with
    | none => rfl
    | some b => simp [RemoteOutcome.isSuccess] at hf

/-- The results accumulated by the batch loop are the success dictionaries
of the directions whose remote call succeeded, in input order. -/
theorem charLoop_results (defaultDir description name : String) (size : Nat)
    (output_dir : Option String) (remote : Nat → RemoteOutcome) :
    ∀ (dirs : List String) (i : Nat),
      (charLoop defaultDir description name size output_dir remote i
        dirs).results
        = (selectDirs remote i dirs).map
            (spriteOkResult defaultDir description name size output_dir) := by
  intro dirs
  induction dirs with
  | nil => intro i; rfl
  | cons d rest ih =>
      intro i
      by_cases hs : (remote i).isSuccess
      · rcases hsi : remote i with m | img
        · rw [hsi] at hs; simp [RemoteOutcome.isSuccess] at hs
        · cases img with
          | none => rw [hsi] at hs; simp [RemoteOutcome.isSuccess] at hs
          | some b =>
              simp [charLoop, selectDirs, hsi, generate_sprite_ok,
                RemoteOutcome.isSuccess, generate_sprite_success_eq,
                spriteOkResult, ih]
      · have hs' : (remote i).isSuccess = false := by
          simpa using hs
        simp [charLoop, selectDirs, generate_sprite_ok, hs', ih]

/-- The errors accumulated by the batch loop are exactly the
`(direction, error text)` pairs of the failed remote calls, in input
order. -/
theorem charLoop_errors (defaultDir description name : String) (size : Nat)
    (output_dir : Option String) (remote : Nat → RemoteOutcome) :
    ∀ (dirs : List String) (i : Nat),
      (charLoop defaultDir description name size output_dir remote i
        dirs).errors = rejectErrs remote i dirs := by
  intro dirs
  induction dirs with
  | nil => intro i; rfl
  | cons d rest ih =>
      intro i
      by_cases hs : (remote i).isSuccess
      · simp [charLoop, rejectErrs, generate_sprite_ok, hs, ih]
      · have hs' : (remote i).isSuccess = false := by simpa using hs
        simp [charLoop, rejectErrs, generate_sprite_ok, hs', ih,
          generate_sprite_fail_eq]

/-- The batch loop attempts every direction exactly once, in input order,
whatever the remote outcomes are. -/
theorem charLoop_calls (defaultDir description name : String) (size : Nat)
    (output_dir : Option String) (remote : Nat → RemoteOutcome) :
    ∀ (dirs : List String) (i : Nat),
      (charLoop defaultDir description name size output_dir remote i
        dirs).calls = dirs := by
  intro dirs
  induction dirs with
  | nil => intro i; rfl
  | cons d rest ih =>
      intro i
      by_cases hs : (remote i).isSuccess = true <;>
        simp [charLoop, generate_sprite_ok, hs, ih]

/-- The succeeding directions form a sublist of the input (order
preserved). -/
theorem selectDirs_sublist (remote : Nat → RemoteOutcome) :
    ∀ (dirs : List String) (i : Nat), (selectDirs remote i dirs).Sublist dirs := by
  intro dirs
  induction dirs with
  | nil => intro i; simp [selectDirs]
  | cons d rest ih =>
      intro i
      by_cases hs : (remote i).isSuccess = true
      · simpa [selectDirs, hs] using (ih (i + 1)).cons₂ d
      · simp only [selectDirs, hs, if_neg]
        simpa [hs] using (ih (i + 1)).cons d

/-- The failing directions form a sublist of the input (order preserved). -/
theorem rejectErrs_fst_sublist (remote : Nat → RemoteOutcome) :
    ∀ (dirs : List String) (i : Nat),
      ((rejectErrs remote i dirs).map Prod.fst).Sublist dirs := by
  intro dirs
  induction dirs with
  | nil => intro i; simp [rejectErrs]
  | cons d rest ih =>
      intro i
      by_cases hs : (remote i).isSuccess = true
      · simpa [rejectErrs, hs] using (ih (i + 1)).cons d
      · simpa [rejectErrs, hs] using (ih (i + 1)).cons₂ d

/-- Each input occurrence lands in exactly one of the two output lists:
occurrence counts add up. -/
theorem select_reject_count (remote : Nat → RemoteOutcome) (d : String) :
    ∀ (dirs : List String) (i : Nat),
      (selectDirs remote i dirs).count d
        + ((rejectErrs remote i dirs).map Prod.fst).count d
        = dirs.count d := by
  intro dirs
  induction dirs with
  | nil => intro i; simp [selectDirs, rejectErrs]
  | cons e rest ih =>
      intro i
      have h := ih (i + 1)
      by_cases hs : (remote i).isSuccess = true <;>
        by_cases hd : e = d <;>
          simp [selectDirs, rejectErrs, hs, hd, List.count_cons] <;> omega

/-- No direction succeeds exactly when the selection is empty. -/
theorem selectDirs_eq_nil_iff (remote : Nat → RemoteOutcome) :
    ∀ (dirs : List String) (i : Nat),
      (selectDirs remote i dirs = []
        ↔ ∀ j < dirs.length, (remote (i + j)).isSuccess = false) := by
  intro dirs
  induction dirs with
  | nil => intro i; simp [selectDirs]
  | cons d rest ih =>
      intro i
      by_cases hs : (remote i).isSuccess = true
      · simp only [selectDirs, hs, if_pos]
        constructor
        · intro h; exact absurd h (by simp)
        · intro h
          have := h 0 (by simp)
          simp [hs] at this
      · have hs' : (remote i).isSuccess = false := by simpa using hs
        rw [show selectDirs remote i (d :: rest) = selectDirs remote (i + 1) rest
          from by simp [selectDirs, hs']]
        rw [ih (i + 1)]
        constructor
        · intro h j hj
          cases j with
          | zero => simpa using hs
          | succ k =>
              have := h k (by simpa using Nat.lt_of_succ_lt_succ hj)
              simpa [Nat.add_assoc, Nat.add_comm 1 k] using this
        · intro h j hj
          have := h (j + 1) (by simpa using Nat.succ_lt_succ hj)
          simpa [Nat.add_assoc, Nat.add_comm 1 j] using this

/-- When every remote call fails, the failure list covers the whole input,
in order. -/
theorem rejectErrs_fst_of_all_fail (remote : Nat → RemoteOutcome) :
    ∀ (dirs : List String) (i : Nat),
      (∀ j < dirs.length, (remote (i + j)).isSuccess = false) →
      (rejectErrs remote i dirs).map Prod.fst = dirs := by
  intro dirs
  induction dirs with
  | nil => intro i _; simp [rejectErrs]
  | cons d rest ih =>
      intro i h
      have h0 : (remote i).isSuccess = false := by simpa using h 0 (by simp)
      have hrest : ∀ j < rest.length, (remote (i + 1 + j)).isSuccess = false := by
        intro j hj
        have := h (j + 1) (by simpa using Nat.succ_lt_succ hj)
        simpa [Nat.add_assoc, Nat.add_comm 1 j] using this
      simp [rejectErrs, h0, ih (i + 1) hrest]

/-- Every failure entry carries exactly the error text of some remote
outcome. -/
theorem rejectErrs_snd (remote : Nat → RemoteOutcome) :
    ∀ (dirs : List String) (i : Nat),
      ∀ e ∈ rejectErrs remote i dirs, ∃ k, e.2 = some ((remote k).errText) := by
  intro dirs
  induction dirs with
  | nil => intro i e he; simp [rejectErrs] at he
  | cons d rest ih =>
      intro i e he
      by_cases hs : (remote i).isSuccess = true
      · simp only [rejectErrs, hs, if_pos] at he
        exact ih (i + 1) e he
      · simp only [rejectErrs, hs, if_neg] at he
        rcases List.mem_cons.mp he with h | h
        · exact ⟨i, by simp [h]⟩
        · exact ih (i + 1) e h

/-- Master characterization of `generate_character_set` on an explicit
direction list: the success directions, failure entries, overall flag,
attempted calls and file list, all expressed through the reference lists
`selectDirs` and `rejectErrs`. -/
theorem charSet_spec (defaultDir description name : String) (size : Nat)
    (dirs : List String) (output_dir : Option String)
    (remote : Nat → RemoteOutcome) :
    (generate_character_set defaultDir description name size (some dirs)
        output_dir remote).succDirs = selectDirs remote 0 dirs
    ∧ (generate_character_set defaultDir description name size (some dirs)
        output_dir remote).errDirs = (rejectErrs remote 0 dirs).map Prod.fst
    ∧ (generate_character_set defaultDir description name size (some dirs)
        output_dir remote).res.ok = !(selectDirs remote 0 dirs).isEmpty
    ∧ (generate_character_set defaultDir description name size (some dirs)
        output_dir remote).calls = dirs
    ∧ ((generate_character_set defaultDir description name size (some dirs)
        output_dir remote).res.files.getD [])
        = (selectDirs remote 0 dirs).map (spritePath defaultDir output_dir name)
    ∧ ((selectDirs remote 0 dirs).isEmpty = true →
        (generate_character_set defaultDir description name size (some dirs)
          output_dir remote).res.errorsVal = some (rejectErrs remote 0 dirs)
        ∧ (generate_character_set defaultDir description name size (some dirs)
          output_dir remote).res.error = some "Failed to generate any sprites") := by
  have hres := charLoop_results defaultDir description name size output_dir remote dirs 0
  have herr := charLoop_errors defaultDir description name size output_dir remote dirs 0
  have hcall := charLoop_calls defaultDir description name size output_dir remote dirs 0
  by_cases hsel : (selectDirs remote 0 dirs).isEmpty
  · have hnil : selectDirs remote 0 dirs = [] := List.isEmpty_iff.mp hsel
    simp [generate_character_set, CharSetOut.succDirs, CharSetOut.errDirs,
      hres, herr, hcall, hnil]
  · have hne : selectDirs remote 0 dirs ≠ [] := by
      simpa [List.isEmpty_iff] using hsel
    have hsel' : (selectDirs remote 0 dirs).isEmpty = false := by
      simpa using hsel
    by_cases herrs : rejectErrs remote 0 dirs = []
    · simp [generate_character_set, CharSetOut.succDirs, CharSetOut.errDirs,
        hres, herr, hcall, hne, hsel', herrs, spriteOkResult,
        Function.comp_def]
    · simp [generate_character_set, CharSetOut.succDirs, CharSetOut.errDirs,
        hres, herr, hcall, hne, hsel', herrs, spriteOkResult,
        Function.comp_def]

/-! ### Claim theorems -/

/-- C1: for every non-empty, duplicate-free input list of directions (the
spec constrains `directions` to be a non-empty set), each requested
direction appears in exactly one of the success directions and the error
directions of the `generate_character_set` result — never in both, never
omitted — and each of the two lists is duplicate-free; nothing outside the
input appears in them. -/
theorem charSet_direction_partition (defaultDir description name : String)
    (size : Nat) (dirs : List String) (output_dir : Option String)
    (remote : Nat → RemoteOutcome) (hne : dirs ≠ []) (hnd : dirs.Nodup) :
    (∀ d ∈ dirs,
      (d ∈ (generate_character_set defaultDir description name size
              (some dirs) output_dir remote).succDirs
        ∧ d ∉ (generate_character_set defaultDir description name size
              (some dirs) output_dir remote).errDirs)
      ∨ (d ∉ (generate_character_set defaultDir description name size
              (some dirs) output_dir remote).succDirs
        ∧ d ∈ (generate_character_set defaultDir description name size
              (some dirs) output_dir remote).errDirs))
    ∧ (∀ d, d ∈ (generate_character_set defaultDir description name size
              (some dirs) output_dir remote).succDirs
          ∨ d ∈ (generate_character_set defaultDir description name size
              (some dirs) output_dir remote).errDirs → d ∈ dirs)
    ∧ (generate_character_set defaultDir description name size (some dirs)
        output_dir remote).succDirs.Nodup
    ∧ (generate_character_set defaultDir description name size (some dirs)
        output_dir remote).errDirs.Nodup := by
  have _ := hne
  obtain ⟨hS, hE, -, -, -, -⟩ :=
    charSet_spec defaultDir description name size dirs output_dir remote
  rw [hS, hE]
  refine ⟨?_, ?_, ?_, ?_⟩
  · intro d hd
    have hcount := select_reject_count remote d dirs 0
    have h1 : dirs.count d = 1 := List.count_eq_one_of_mem hnd hd
    rw [h1] at hcount
    rcases Nat.eq_zero_or_pos ((selectDirs remote 0 dirs).count d) with h | h
    · right
      refine ⟨List.count_eq_zero.mp h, List.count_pos_iff.mp ?_⟩
      omega
    · left
      refine ⟨List.count_pos_iff.mp h, List.count_eq_zero.mp ?_⟩
      omega
  · intro d hd
    rcases hd with h | h
    · exact (selectDirs_sublist remote dirs 0).subset h
    · exact (rejectErrs_fst_sublist remote dirs 0).subset h
  · exact hnd.sublist (selectDirs_sublist remote dirs 0)
  · exact hnd.sublist (rejectErrs_fst_sublist remote dirs 0)

/-- Witness for C1 at a concrete input: directions north and south, the
first remote call succeeding and the second raising. -/
theorem charSet_direction_partition_witness :
    (["north", "south"] : List String) ≠ [] ∧
    (∀ d ∈ (["north", "south"] : List String),
      (d ∈ (generate_character_set "D" "wizard" "bob" 48
              (some ["north", "south"]) none
              (fun i => if i = 0 then .resp (some [1]) else .raised "boom")).succDirs
        ∧ d ∉ (generate_character_set "D" "wizard" "bob" 48
              (some ["north", "south"]) none
              (fun i => if i = 0 then .resp (some [1]) else .raised "boom")).errDirs)
      ∨ (d ∉ (generate_character_set "D" "wizard" "bob" 48
              (some ["north", "south"]) none
              (fun i => if i = 0 then .resp (some [1]) else .raised "boom")).succDirs
        ∧ d ∈ (generate_character_set "D" "wizard" "bob" 48
              (some ["north", "south"]) none
              (fun i => if i = 0 then .resp (some [1]) else .raised "boom")).errDirs)) :=
  ⟨by decide,
   (charSet_direction_partition "D" "wizard" "bob" 48 ["north", "south"] none
      (fun i => if i = 0 then .resp (some [1]) else .raised "boom")
      (by decide) (by decide)).1⟩

/-- C3: each direction in the input list is attempted exactly once per
call, in input order, whatever the remote outcomes are — so a failing
sub-request never aborts or skips the remaining directions, and no retry
happens. -/
theorem charSet_attempts_each_direction_once
    (defaultDir description name : String) (size : Nat) (dirs : List String)
    (output_dir : Option String) (remote : Nat → RemoteOutcome) :
    (generate_character_set defaultDir description name size (some dirs)
      output_dir remote).calls = dirs :=
  (charSet_spec defaultDir description name size dirs output_dir remote).2.2.2.1

/-- C2: `generate_character_set` reports `ok = true` exactly when at least
one sub-request succeeded; when every sub-request fails it reports
`ok = false` together with the full per-direction failure list (one entry
per input direction, in input order) whose reasons are all non-empty,
provided every exception raised by the remote carries non-empty text (the
code forwards `str(e)` verbatim, and its own literal reason is
non-empty). -/
theorem charSet_ok_iff_some_success (defaultDir description name : String)
    (size : Nat) (dirs : List String) (output_dir : Option String)
    (remote : Nat → RemoteOutcome) (hne : dirs ≠ [])
    (hmsg : ∀ i m, remote i = .raised m → m ≠ "") :
    ((generate_character_set defaultDir description name size (some dirs)
        output_dir remote).res.ok = true
      ↔ ∃ j, j < dirs.length ∧ (remote j).isSuccess = true)
    ∧ ((∀ j, j < dirs.length → (remote j).isSuccess = false) →
        (generate_character_set defaultDir description name size (some dirs)
          output_dir remote).res.ok = false
        ∧ (generate_character_set defaultDir description name size (some dirs)
          output_dir remote).res.error
            = some "Failed to generate any sprites"
        ∧ ((generate_character_set defaultDir description name size (some dirs)
          output_dir remote).res.errorsVal.getD []).map Prod.fst = dirs
        ∧ ∀ e ∈ (generate_character_set defaultDir description name size
            (some dirs) output_dir remote).res.errorsVal.getD [],
            ∃ s, e.2 = some s ∧ s ≠ "") := by
  have _ := hne
  obtain ⟨-, -, hOk, -, -, hFail⟩ :=
    charSet_spec defaultDir description name size dirs output_dir remote
  have hiff := selectDirs_eq_nil_iff remote dirs 0
  simp only [Nat.zero_add] at hiff
  have herrtext : ∀ k, (remote k).errText ≠ "" := by
    intro k
    rcases hk : remote k with m | img
    · exact hmsg k m hk
    · simp [RemoteOutcome.errText]
  constructor
  · rw [hOk]
    constructor
    · intro h
      by_contra hno
      push_neg at hno
      have hall : ∀ j < dirs.length, (remote j).isSuccess = false := by
        intro j hj
        simpa using hno j hj
      rw [hiff.mpr hall] at h
      simp at h
    · rintro ⟨j, hj, hsucc⟩
      rcases hnil : selectDirs remote 0 dirs with _ | ⟨a, as⟩
      · have := hiff.mp hnil j hj
        rw [hsucc] at this
        cases this
      · simp
  · intro hall
    have hall' : ∀ j < dirs.length, (remote j).isSuccess = false := hall
    have hnil : selectDirs remote 0 dirs = [] := hiff.mpr hall'
    have hEmp : (selectDirs remote 0 dirs).isEmpty = true := by
      simp [hnil]
    obtain ⟨hEv, hEr⟩ := hFail hEmp
    refine ⟨by rw [hOk, hnil]; rfl, hEr, ?_, ?_⟩
    · rw [hEv]
      have hfst := rejectErrs_fst_of_all_fail remote dirs 0
      simp only [Nat.zero_add] at hfst
      simpa using hfst hall'
    · rw [hEv]
      intro e he
      simp only [Option.getD_some] at he
      obtain ⟨k, hk⟩ := rejectErrs_snd remote dirs 0 e he
      exact ⟨(remote k).errText, hk, herrtext k⟩

/-- Witness for C2 at a concrete input: one direction, the remote raising
with message "boom"; the batch fails with the full failure list. -/
theorem charSet_ok_iff_some_success_witness :
    (generate_character_set "D" "wizard" "bob" 48 (some ["north"]) none
      (fun _ => .raised "boom")).res.ok = false
    ∧ (generate_character_set "D" "wizard" "bob" 48 (some ["north"]) none
      (fun _ => .raised "boom")).res.error
        = some "Failed to generate any sprites"
    ∧ ((generate_character_set "D" "wizard" "bob" 48 (some ["north"]) none
      (fun _ => .raised "boom")).res.errorsVal.getD []).map Prod.fst
        = ["north"] := by
  have h := (charSet_ok_iff_some_success "D" "wizard" "bob" 48 ["north"] none
    (fun _ => .raised "boom") (by decide)
    (by intro i m hm; cases hm; decide)).2
    (by intro j hj; rfl)
  exact ⟨h.1, h.2.1, h.2.2.1⟩

/-- C9: the success directions, the success file paths, and the failure
directions each appear in the same relative order as the corresponding
directions in the input list (the sub-requests run sequentially in input
order). -/
theorem charSet_preserves_input_order (defaultDir description name : String)
    (size : Nat) (dirs : List String) (output_dir : Option String)
    (remote : Nat → RemoteOutcome) :
    (generate_character_set defaultDir description name size (some dirs)
      output_dir remote).succDirs.Sublist dirs
    ∧ (generate_character_set defaultDir description name size (some dirs)
      output_dir remote).errDirs.Sublist dirs
    ∧ (generate_character_set defaultDir description name size (some dirs)
      output_dir remote).res.files.getD []
        = ((generate_character_set defaultDir description name size (some dirs)
          output_dir remote).succDirs).map (spritePath defaultDir output_dir name) := by
  obtain ⟨hS, hE, -, -, hF, -⟩ :=
    charSet_spec defaultDir description name size dirs output_dir remote
  rw [hS, hE, hF]
  exact ⟨selectDirs_sublist remote dirs 0, rejectErrs_fst_sublist remote dirs 0,
    rfl⟩

/-- C10: with an explicitly empty directions list, `generate_character_set`
attempts no sub-request, writes nothing, and returns `ok = false` with the
error text "Failed to generate any sprites" and an empty (but present)
errors list. -/
theorem charSet_empty_directions (defaultDir description name : String)
    (size : Nat) (output_dir : Option String)
    (remote : Nat → RemoteOutcome) :
    (generate_character_set defaultDir description name size (some [])
      output_dir remote).res.ok = false
    ∧ (generate_character_set defaultDir description name size (some [])
      output_dir remote).res.error = some "Failed to generate any sprites"
    ∧ (generate_character_set defaultDir description name size (some [])
      output_dir remote).res.errorsVal = some []
    ∧ (generate_character_set defaultDir description name size (some [])
      output_dir remote).writes = []
    ∧ (generate_character_set defaultDir description name size (some [])
      output_dir remote).calls = [] :=
  ⟨rfl, rfl, rfl, rfl, rfl⟩

/-- Helper: in the polling loop, sleeps and polls stay paired — every poll
is preceded by exactly one sleep and no sleep follows the final poll. -/
theorem pollLoopAux_sleeps_eq_polls (status : Nat → PollResp)
    (interval max_wait : Nat) (hi : 0 < interval) :
    ∀ waited polls sleeps,
      (pollLoopAux status interval max_wait hi waited polls sleeps).trace.sleeps
          + polls
        = (pollLoopAux status interval max_wait hi waited polls
            sleeps).trace.polls + sleeps := by
  intro waited polls sleeps
  induction waited, polls, sleeps using
    pollLoopAux.induct status interval max_wait hi with
  | case1 w p s hw m hm =>
      rw [pollLoopAux]
      simp [hw, hm, LoopExit.trace]
      omega
  | case2 w p s hw rots hr he ih =>
      rw [pollLoopAux]
      simp [hw, hr, he]
      omega
  | case3 w p s hw rots hr he =>
      rw [pollLoopAux]
      simp [hw, hr, he, LoopExit.trace]
      omega
  | case4 w p s hw =>
      rw [pollLoopAux]
      simp [hw, LoopExit.trace]
      omega

/-- Helper: the final outcome of the wait inherits the pairing of sleeps
and polls. -/
theorem awaitCompletion_sleeps_eq_polls (status : Nat → PollResp)
    (interval max_wait : Nat) (hi : 0 < interval) :
    (awaitCompletion status interval max_wait hi).trace.sleeps
      = (awaitCompletion status interval max_wait hi).trace.polls := by
  have h := pollLoopAux_sleeps_eq_polls status interval max_wait hi 0 0 0
  unfold awaitCompletion
  rcases he : pollLoopAux status interval max_wait hi 0 0 0 with
    ⟨t, r⟩ | ⟨t, m⟩ | t <;> rw [he] at h
  · by_cases hw : max_wait ≤ t.waited <;>
      simp [hw, PollOutcome.trace, LoopExit.trace] at h ⊢ <;> omega
  · simp [PollOutcome.trace, LoopExit.trace] at h ⊢
    omega
  · simp [PollOutcome.trace, LoopExit.trace] at h ⊢
    omega

/-- C4 counterexample: when the remote returns a response without an image,
the code reports the literal "No image in response" (capital N), not the
spec's literal "no image in response"; the claim's quoted literal does not
match the code's. -/
theorem generate_sprite_no_image_literal_counterexample :
    (generate_sprite "D" "golden coin" "coin" 24 24 "top-down" "south" true
      (some "/tmp/out") (.resp none)).1.error = some "No image in response"
    ∧ (generate_sprite "D" "golden coin" "coin" 24 24 "top-down" "south" true
      (some "/tmp/out") (.resp none)).1.error ≠ some "no image in response"
    ∧ (generate_sprite "D" "golden coin" "coin" 24 24 "top-down" "south" true
      (some "/tmp/out") (.resp none)).2 = [] := by
  refine ⟨rfl, ?_, rfl⟩
  decide

/-- C4 amended: `generate_sprite` performs no filesystem write when the
remote call raises or returns a response with no image payload, reporting
failure with the raised error text or with the literal
"No image in response" (capital N); on success it performs exactly one
write, at the deterministic path, and returns that path together with the
echoed request parameters. -/
theorem generate_sprite_failure_no_write (defaultDir description name : String)
    (width height : Nat) (view direction : String) (no_background : Bool)
    (output_dir : Option String) (remote : RemoteOutcome) :
    (∀ m, remote = .raised m →
      (generate_sprite defaultDir description name width height view direction
        no_background output_dir remote).1.ok = false
      ∧ (generate_sprite defaultDir description name width height view
          direction no_background output_dir remote).1.error = some m
      ∧ (generate_sprite defaultDir description name width height view
          direction no_background output_dir remote).2 = [])
    ∧ (remote = .resp none →
      (generate_sprite defaultDir description name width height view direction
        no_background output_dir remote).1.ok = false
      ∧ (generate_sprite defaultDir description name width height view
          direction no_background output_dir remote).1.error
            = some "No image in response"
      ∧ (generate_sprite defaultDir description name width height view
          direction no_background output_dir remote).2 = [])
    ∧ (∀ img, remote = .resp (some img) →
      (generate_sprite defaultDir description name width height view direction
        no_background output_dir remote).1.ok = true
      ∧ (generate_sprite defaultDir description name width height view
          direction no_background output_dir remote).1.file_path
            = some (spritePath defaultDir output_dir name direction)
      ∧ (generate_sprite defaultDir description name width height view
          direction no_background output_dir remote).2
            = [(spritePath defaultDir output_dir name direction, img)]
      ∧ (generate_sprite defaultDir description name width height view
          direction no_background output_dir remote).1.direction
            = some direction
      ∧ (generate_sprite defaultDir description name width height view
          direction no_background output_dir remote).1.view = some view
      ∧ (generate_sprite defaultDir description name width height view
          direction no_background output_dir remote).1.description
            = some description
      ∧ (generate_sprite defaultDir description name width height view
          direction no_background output_dir remote).1.size
            = some (toString width ++ "x" ++ toString height)) := by
  refine ⟨?_, ?_, ?_⟩
  · intro m hm
    subst hm
    exact ⟨rfl, rfl, rfl⟩
  · intro hm
    subst hm
    exact ⟨rfl, rfl, rfl⟩
  · intro img hm
    subst hm
    exact ⟨rfl, rfl, rfl, rfl, rfl, rfl, rfl⟩

/-- Witness for C4 (amended) at concrete inputs: a raising remote writes
nothing; a successful remote performs exactly the one expected write. -/
theorem generate_sprite_failure_no_write_witness :
    ((generate_sprite "D" "golden coin" "coin" 24 24 "top-down" "south" true
      (some "/tmp/out") (.raised "boom")).1.ok = false
    ∧ (generate_sprite "D" "golden coin" "coin" 24 24 "top-down" "south" true
      (some "/tmp/out") (.raised "boom")).1.error = some "boom"
    ∧ (generate_sprite "D" "golden coin" "coin" 24 24 "top-down" "south" true
      (some "/tmp/out") (.raised "boom")).2 = [])
    ∧ ((generate_sprite "D" "golden coin" "coin" 24 24 "top-down" "south" true
      (some "/tmp/out") (.resp (some [1, 2]))).1.ok = true
    ∧ (generate_sprite "D" "golden coin" "coin" 24 24 "top-down" "south" true
      (some "/tmp/out") (.resp (some [1, 2]))).1.file_path
        = some (spritePath "D" (some "/tmp/out") "coin" "south")
    ∧ (generate_sprite "D" "golden coin" "coin" 24 24 "top-down" "south" true
      (some "/tmp/out") (.resp (some [1, 2]))).2
        = [(spritePath "D" (some "/tmp/out") "coin" "south", [1, 2])]
    ∧ (generate_sprite "D" "golden coin" "coin" 24 24 "top-down" "south" true
      (some "/tmp/out") (.resp (some [1, 2]))).1.direction = some "south"
    ∧ (generate_sprite "D" "golden coin" "coin" 24 24 "top-down" "south" true
      (some "/tmp/out") (.resp (some [1, 2]))).1.view = some "top-down"
    ∧ (generate_sprite "D" "golden coin" "coin" 24 24 "top-down" "south" true
      (some "/tmp/out") (.resp (some [1, 2]))).1.description
        = some "golden coin"
    ∧ (generate_sprite "D" "golden coin" "coin" 24 24 "top-down" "south" true
      (some "/tmp/out") (.resp (some [1, 2]))).1.size
        = some (toString 24 ++ "x" ++ toString 24)) :=
  ⟨(generate_sprite_failure_no_write "D" "golden coin" "coin" 24 24 "top-down"
      "south" true (some "/tmp/out") (.raised "boom")).1 "boom" rfl,
   (generate_sprite_failure_no_write "D" "golden coin" "coin" 24 24 "top-down"
      "south" true (some "/tmp/out") (.resp (some [1, 2]))).2.2 [1, 2] rfl⟩

/-- C5: the output filename is a deterministic function of the sprite name
and direction only — the name lower-cased with spaces replaced by
underscores, joined with the direction — so two successful calls with the
same (name, direction) and the same output directory compute the identical
path, whatever the other parameters are; the second write lands on the same
path, creating no new file and leaving the second image there. -/
theorem sprite_filename_deterministic_overwrite (defaultDir : String)
    (desc1 desc2 name : String) (w1 h1 w2 h2 : Nat) (v1 v2 direction : String)
    (nb1 nb2 : Bool) (output_dir : Option String) (img1 img2 : Bytes)
    (fs : String → Option Bytes) :
    (generate_sprite defaultDir desc1 name w1 h1 v1 direction nb1 output_dir
      (.resp (some img1))).1.filename = some (spriteFilename name direction)
    ∧ (generate_sprite defaultDir desc2 name w2 h2 v2 direction nb2 output_dir
      (.resp (some img2))).1.filename = some (spriteFilename name direction)
    ∧ (generate_sprite defaultDir desc2 name w2 h2 v2 direction nb2 output_dir
      (.resp (some img2))).1.file_path
        = (generate_sprite defaultDir desc1 name w1 h1 v1 direction nb1
          output_dir (.resp (some img1))).1.file_path
    ∧ (∀ p,
        (applyWrites ((generate_sprite defaultDir desc2 name w2 h2 v2 direction
            nb2 output_dir (.resp (some img2))).2)
          (applyWrites ((generate_sprite defaultDir desc1 name w1 h1 v1
            direction nb1 output_dir (.resp (some img1))).2) fs) p).isSome
        ↔ (applyWrites ((generate_sprite defaultDir desc1 name w1 h1 v1
            direction nb1 output_dir (.resp (some img1))).2) fs p).isSome)
    ∧ applyWrites ((generate_sprite defaultDir desc2 name w2 h2 v2 direction
        nb2 output_dir (.resp (some img2))).2)
        (applyWrites ((generate_sprite defaultDir desc1 name w1 h1 v1 direction
          nb1 output_dir (.resp (some img1))).2) fs)
        (spritePath defaultDir output_dir name direction) = some img2 := by
  refine ⟨rfl, rfl, rfl, ?_, ?_⟩
  · intro p
    by_cases hp : p = spritePath defaultDir output_dir name direction <;>
      simp [generate_sprite, applyWrites, applyWrite, hp]
  · simp [generate_sprite, applyWrites, applyWrite]

/-- C6: when the balance lookup raises, `health` reports `ok = false` and
classifies the failure — `token_valid` is false exactly when the error text
contains "401" or "Unauthorized" as a substring; when the lookup succeeds
it reports `ok = true` with the numeric balance (0 when the balance object
lacks a `usd` attribute). -/
theorem health_classification (r : BalanceOutcome) :
    (∀ m, r = .raised m →
      (health r).ok = false
      ∧ (health r).error = some m
      ∧ ((health r).token_valid = false
          ↔ (strContains m "401" = true ∨ strContains m "Unauthorized" = true)))
    ∧ (∀ usd, r = .balance usd →
      (health r).ok = true ∧ (health r).balance_usd = some (usd.getD 0)) := by
  constructor
  · intro m hm
    subst hm
    refine ⟨rfl, rfl, ?_⟩
    cases h1 : strContains m "401" <;> cases h2 : strContains m "Unauthorized" <;>
      simp [health, h1, h2]
  · intro usd hu
    subst hu
    exact ⟨rfl, rfl⟩

/-- Witness for C6 at concrete inputs: an error text containing both "401"
and "Unauthorized" is classified as a credential problem, one containing
neither keeps `token_valid = true`, and a successful lookup reports the
balance. -/
theorem health_classification_witness :
    ((health (.raised "HTTP 401 Unauthorized")).ok = false
      ∧ (health (.raised "HTTP 401 Unauthorized")).token_valid = false)
    ∧ (health (.raised "connection timed out")).token_valid = true
    ∧ ((health (.balance (some 5))).ok = true
      ∧ (health (.balance (some 5))).balance_usd = some 5) := by
  have h1 := (health_classification (.raised "HTTP 401 Unauthorized")).1
    "HTTP 401 Unauthorized" rfl
  have h2 := (health_classification (.raised "connection timed out")).1
    "connection timed out" rfl
  have h3 := (health_classification (.balance (some 5))).2 (some 5) rfl
  refine ⟨⟨h1.1, h1.2.2.mpr (Or.inl (by decide))⟩, ?_, h3⟩
  have hcontra := h2.2.2
  cases htv : (health (.raised "connection timed out")).token_valid
  · rcases hcontra.mp htv with h | h
    · exact absurd h (by decide)
    · exact absurd h (by decide)
  · rfl

/-- C7 counterexample: with `pollIntervalSeconds = 5`, `maxWaitSeconds =
10` and a status function returning empty rotation lists on the first two
polls and a non-empty one from the third, the code does not detect
readiness after 2 sleeps as the claim states: the loop sleeps before each
poll, performs 2 sleeps and 2 polls, and then exits with a timeout — the
third poll never happens. -/
theorem awaitCompletion_scenario_counterexample :
    (awaitCompletion scenarioStatus 5 10 (by decide)).isReady = false
    ∧ awaitCompletion scenarioStatus 5 10 (by decide)
        = .timeout ⟨2, 2, 10⟩ := by
  constructor <;>
    simp [awaitCompletion, pollLoopAux, scenarioStatus, PollOutcome.isReady]

/-- C7 amended: the loop sleeps exactly `pollIntervalSeconds` before each
poll (sleeps and polls stay paired in every outcome, so a non-empty poll
stops the loop with no further sleep); in the claimed scenario
(interval 5, maxWait 10, status empty-empty-nonEmpty) exactly 2 sleeps of 5
seconds and 2 polls occur and the wait ends in timeout without a third
sleep or poll; readiness on the third poll is detected — after exactly 3
sleeps, never a fourth — only when `maxWaitSeconds` allows it (for
instance 20). -/
theorem awaitCompletion_sleep_before_poll :
    (∀ (status : Nat → PollResp) (interval max_wait : Nat)
        (hi : 0 < interval),
      (awaitCompletion status interval max_wait hi).trace.sleeps
        = (awaitCompletion status interval max_wait hi).trace.polls)
    ∧ awaitCompletion scenarioStatus 5 10 (by decide) = .timeout ⟨2, 2, 10⟩
    ∧ awaitCompletion scenarioStatus 5 20 (by decide)
        = .ready ⟨3, 3, 15⟩ ["north"] := by
  refine ⟨awaitCompletion_sleeps_eq_polls, ?_, ?_⟩ <;>
    simp [awaitCompletion, pollLoopAux, scenarioStatus]

/-- Witness for C7 (amended) at a concrete input, discharging the
positive-interval hypothesis at interval 5. -/
theorem awaitCompletion_sleep_before_poll_witness :
    (awaitCompletion scenarioStatus 5 10 (by decide)).trace.sleeps
      = (awaitCompletion scenarioStatus 5 10 (by decide)).trace.polls :=
  awaitCompletion_sleep_before_poll.1 scenarioStatus 5 10 (by decide)

/-- C8: for every remote behavior, including raised exceptions, each of the
four exposed operations returns a structured result with an `ok` boolean,
and whenever `ok` is false the result carries an `error` string — the
remote failure never escapes the operation. -/
theorem tools_return_structured_results :
    (∀ r : BalanceOutcome,
      (health r).ok = false → ∃ s, (health r).error = some s)
    ∧ (∀ (defaultDir description name : String) (width height : Nat)
        (view direction : String) (no_background : Bool)
        (output_dir : Option String) (ro : RemoteOutcome),
      (generate_sprite defaultDir description name width height view
        direction no_background output_dir ro).1.ok = false →
      ∃ s, (generate_sprite defaultDir description name width height view
        direction no_background output_dir ro).1.error = some s)
    ∧ (∀ (defaultDir description name : String) (size : Nat)
        (directions : Option (List String)) (output_dir : Option String)
        (remote : Nat → RemoteOutcome),
      (generate_character_set defaultDir description name size directions
        output_dir remote).res.ok = false →
      ∃ s, (generate_character_set defaultDir description name size directions
        output_dir remote).res.error = some s)
    ∧ (∀ (defaultDir description name : String) (size : Nat)
        (isometric : Bool) (output_dir : Option String) (ro : RemoteOutcome),
      (generate_tile defaultDir description name size isometric output_dir
        ro).1.ok = false →
      ∃ s, (generate_tile defaultDir description name size isometric
        output_dir ro).1.error = some s) := by
  refine ⟨?_, ?_, ?_, ?_⟩
  · intro r hok
    cases r with
    | raised m => exact ⟨m, rfl⟩
    | balance usd => simp [health] at hok
  · intro dd δ n w h v dir nb od ro hok
    cases ro with
    | raised m => exact ⟨m, rfl⟩
    | resp img =>
        cases img with
        | none => exact ⟨"No image in response", rfl⟩
        | some b => simp [generate_sprite] at hok
  · intro dd δ n sz dirs od rem hok
    by_cases h : (charLoop dd δ n sz od rem 0
        (dirs.getD ["north", "south", "east", "west"])).results.isEmpty
    · exact ⟨"Failed to generate any sprites", by simp [generate_character_set, h]⟩
    · exfalso
      simp [generate_character_set, h] at hok
  · intro dd δ n sz iso od ro hok
    cases ro with
    | raised m => exact ⟨m, rfl⟩
    | resp img =>
        cases img with
        | none => exact ⟨"No image in response", rfl⟩
        | some b => simp [generate_tile] at hok

/-- Witness for C8 at concrete failing inputs: each operation surfaces a
raised remote exception as a structured error string. -/
theorem tools_return_structured_results_witness :
    (∃ s, (health (.raised "down")).error = some s)
    ∧ (∃ s, (generate_sprite "D" "a" "b" 1 1 "v" "south" true none
        (.raised "down")).1.error = some s)
    ∧ (∃ s, (generate_character_set "D" "a" "b" 1 (some ["north"]) none
        (fun _ => .raised "down")).res.error = some s)
    ∧ (∃ s, (generate_tile "D" "a" "b" 1 false none
        (.raised "down")).1.error = some s) :=
  ⟨tools_return_structured_results.1 (.raised "down") rfl,
   tools_return_structured_results.2.1 "D" "a" "b" 1 1 "v" "south" true none
     (.raised "down") rfl,
   tools_return_structured_results.2.2.1 "D" "a" "b" 1 (some ["north"]) none
     (fun _ => .raised "down") rfl,
   tools_return_structured_results.2.2.2 "D" "a" "b" 1 false none
     (.raised "down") rfl⟩
